import Mathlib

/-!
Shallow embedding of `src/extension.ts` of vscode-taskexplorer.

The extension code is event-driven glue around the VS Code host API. We model
each call into the host as an `Effect`, and embed each function of
`extension.ts` as a Lean function producing the ordered list of effects it
performs. Event handlers (the closures registered with the host) are embedded
as standalone functions; the `Handler` tag recorded in a subscription effect
names which closure was registered for that event source, mirroring the source
line where the subscription happens.

The discovery cache and the task list filter live in `tasks.ts` /
`scriptHover.ts`, which are not part of the visible source; those are modelled
from the specification (see the doc comments on `DiscoveryCache` and
`TaskProvider.list`).
-/

namespace Extension

/-- The three event kinds a VS Code file-system watcher emits. -/
inductive WatchKind
  | create
  | change
  | delete
deriving DecidableEq, Repr

/-- A VS Code document selector, as used for hover-provider registration. -/
structure DocumentSelector where
  language : String
  scheme : String
  pattern : String
deriving DecidableEq, Repr

/-- Names of the event-handler closures defined in `extension.ts`; a
subscription effect records which closure was wired to the event source. -/
inductive Handler
  | invalidateScriptCaches
  | onConfigChange
  | onTextDocumentChange
deriving DecidableEq, Repr

/-- One call into the VS Code host API (or into the cache modules), in the
order `extension.ts` performs them. -/
inductive Effect
  | createOutputChannel (name : String)
  | registerCommand (name : String)
  | showOutputChannel
  | invalidateHoverScriptsCache (doc : Option String)
  | invalidateTasksCache
  | refreshTree
  | createFileSystemWatcher (pattern : String)
  | subscribeWatcher (pattern : String) (kind : WatchKind) (h : Handler)
  | subscribeWorkspaceFolderChange (h : Handler)
  | subscribeConfigurationChange (h : Handler)
  | subscribeTextDocumentChange (h : Handler)
  | registerTaskProvider (kind : String)
  | createTreeView (name : String)
  | registerHoverProviderFor (sel : DocumentSelector)
  | configureHttp (proxy : String) (strictSSL : Bool)
  | addJSONProviders
  | logMsg (s : String)
deriving DecidableEq, Repr

/-- The settings `extension.ts` reads from the host configuration store. -/
structure Config where
  showOutput : Bool
  httpProxy : String
  httpProxyStrictSSL : Bool
deriving DecidableEq, Repr

/-- Host environment at activation: `workspace.workspaceFolders` is
`undefined` (here `none`) when no workspace is open, and the current
configuration snapshot. -/
structure Env where
  workspaceFolders : Option (List String)
  config : Config
deriving Repr

/-- `invalidateScriptCaches` (extension.ts lines 88-95): invalidates the
hover-scripts cache (all documents) and the tasks cache, then refreshes the
tree view when the module-level `treeDataProvider` is set. -/
def invalidateScriptCaches (treeDataProvider : Bool) : List Effect :=
  [Effect.invalidateHoverScriptsCache none, Effect.invalidateTasksCache] ++
    (if treeDataProvider then [Effect.refreshTree] else [])

/-- The effects of creating one file-system watcher and subscribing its
change, delete and create events, in source order (extension.ts lines
99-102 and the analogous blocks). -/
def watcherEffects (pattern : String) : List Effect :=
  [Effect.createFileSystemWatcher pattern,
   Effect.subscribeWatcher pattern WatchKind.change Handler.invalidateScriptCaches,
   Effect.subscribeWatcher pattern WatchKind.delete Handler.invalidateScriptCaches,
   Effect.subscribeWatcher pattern WatchKind.create Handler.invalidateScriptCaches]

/-- `registerAntTaskProvider` (extension.ts lines 85-126). Returns the
`Disposable` (modelled as `Unit`) when workspace folders exist, `undefined`
otherwise, together with the effects performed. The JavaScript truthiness
test `if (workspace.workspaceFolders)` is `isSome` here. -/
def registerAntTaskProvider (env : Env) : Option Unit × List Effect :=
  if env.workspaceFolders.isSome then
    (some (),
      watcherEffects "**/[Bb]uild.xml" ++
      watcherEffects "**/package.json" ++
      watcherEffects "**/.vscode/tasks.json" ++
      [Effect.subscribeWorkspaceFolderChange Handler.invalidateScriptCaches,
       Effect.registerTaskProvider "ant"])
  else (none, [])

/-- `registerExplorer` (extension.ts lines 129-139): creates the tree view
and returns the tree data provider when workspace folders exist. -/
def registerExplorer (env : Env) : Option Unit × List Effect :=
  if env.workspaceFolders.isSome then
    (some (), [Effect.createTreeView "taskView"])
  else (none, [])

/-- The document selector for the npm script hover provider
(extension.ts lines 145-149). -/
def npmSelector : DocumentSelector :=
  { language := "json", scheme := "file", pattern := "**/package.json" }

/-- `registerHoverProvider` (extension.ts lines 142-155). -/
def registerHoverProvider (env : Env) : Option Unit × List Effect :=
  if env.workspaceFolders.isSome then
    (some (), [Effect.registerHoverProviderFor npmSelector])
  else (none, [])

/-- `configureHttpRequest` (extension.ts lines 158-162): reads the current
`http.proxy` and `http.proxyStrictSSL` settings and applies them. The
current configuration snapshot is passed in, modelling the fresh
`workspace.getConfiguration` call. -/
def configureHttpRequest (cfg : Config) : List Effect :=
  [Effect.configureHttp cfg.httpProxy cfg.httpProxyStrictSSL]

/-- The `onDidChangeConfiguration` closure (extension.ts lines 60-68):
always re-applies the http settings; when the change affects
`taskView.exclude`, invalidates the tasks cache and, if a tree data
provider exists, refreshes the tree view. -/
def onConfigChange (affectsExclude : Bool) (treeDataProvider : Bool)
    (cfg : Config) : List Effect :=
  configureHttpRequest cfg ++
    (if affectsExclude then
      [Effect.invalidateTasksCache] ++
        (if treeDataProvider then [Effect.refreshTree] else [])
    else [])

/-- The `onDidChangeTextDocument` closure (extension.ts lines 71-73):
invalidates the hover-scripts cache for the changed document only. -/
def onTextDocumentChange (doc : String) : List Effect :=
  [Effect.invalidateHoverScriptsCache (some doc)]

/-- The `tryInit` closure inside `_activate` (extension.ts lines 53-80). -/
def tryInit (env : Env) : List Effect :=
  (registerAntTaskProvider env).2 ++
  (registerExplorer env).2 ++
  (registerHoverProvider env).2 ++
  configureHttpRequest env.config ++
  [Effect.subscribeConfigurationChange Handler.onConfigChange,
   Effect.subscribeTextDocumentChange Handler.onTextDocumentChange,
   Effect.registerCommand "taskView.runSelectedScript",
   Effect.addJSONProviders,
   Effect.logMsg "Tasks View started successfully",
   Effect.logMsg " "]

/-- `_activate` (extension.ts lines 42-83): creates the output channel,
registers the show-output command, shows the channel when the
`showOutput` setting is true, then runs `tryInit`. -/
def activateInner (env : Env) : List Effect :=
  [Effect.createOutputChannel "Task View",
   Effect.registerCommand "taskView.showOutput"] ++
  (if env.config.showOutput then [Effect.showOutputChannel] else []) ++
  tryInit env

/-- The module-level `treeDataProvider` after activation: set exactly when
`registerExplorer` returned a provider. -/
def treeDataProviderAfterActivate (env : Env) : Bool :=
  (registerExplorer env).1.isSome

/-- `activate` (extension.ts lines 31-39): awaits `_activate(...)` with a
`.catch` that logs the error to the console, so a rejection of the inner
activation never propagates to the host. The inner outcome is passed in as
an `Except` so every possible failure is covered. -/
def activate (inner : Except String (List Effect)) : Except String (List Effect) :=
  match inner with
  | Except.ok t => Except.ok t
  | Except.error e => Except.ok [Effect.logMsg e]

/-- A discovered task: kind, name and defining file path (spec section 3). -/
structure Task where
  kind : String
  name : String
  file : String
deriving DecidableEq, Repr

/-- Modelled from the spec: the task provider's `list` operation lives in
`tasks.ts`, which is not part of the visible source. Per spec section 4.2,
`list(kind) -> sequence of Task, filtered by exclusion globs`: the tasks
discovered by the parser are returned with every task whose defining file
matches a configured exclusion pattern removed. Glob matching is
host-provided, so it is a parameter. -/
def TaskProvider.list (matchGlob : String → String → Bool)
    (excludePatterns : List String) (discovered : List Task) : List Task :=
  discovered.filter fun t => !(excludePatterns.any fun p => matchGlob t.file p)

/-- Modelled from the spec: the discovery cache lives in `tasks.ts` /
`scriptHover.ts`, which are not part of the visible source. Per spec
sections 3 and 4.1 it is a mapping from scope to the most recently parsed
entry, populated lazily on first query and cleared by `invalidate`. -/
structure DiscoveryCache (α : Type) where
  entries : List (String × α)
deriving Repr

/-- Modelled from the spec: `invalidate(scope)` clears the entry for that
scope (spec section 4.1). -/
def DiscoveryCache.invalidate (c : DiscoveryCache α) (scope : String) :
    DiscoveryCache α :=
  ⟨c.entries.filter fun e => e.1 != scope⟩

/-- Result of a cache query: the value returned, whether the parser was
(re-)run to produce it, and the cache afterwards. -/
structure GetResult (α : Type) where
  value : α
  parsed : Bool
  after : DiscoveryCache α

/-- Modelled from the spec: `get(scope)` returns the cached entry when
present, otherwise runs the parser, stores its result and returns it
(spec section 4.1: populates via the parser if absent). -/
def DiscoveryCache.get (c : DiscoveryCache α) (parse : String → α)
    (scope : String) : GetResult α :=
  match c.entries.lookup scope with
  | some v => ⟨v, false, c⟩
  | none =>
      let v := parse scope
      ⟨v, true, ⟨(scope, v) :: c.entries⟩⟩

/-- The three glob patterns watched by `registerAntTaskProvider`, in
source order. -/
def watchedPatterns : List String :=
  ["**/[Bb]uild.xml", "**/package.json", "**/.vscode/tasks.json"]

/-- The file-system watcher creations in a trace, in order. -/
def watchersOf (t : List Effect) : List String :=
  t.filterMap fun e => match e with
    | Effect.createFileSystemWatcher p => some p
    | _ => none

/-- The hover-provider registrations in a trace, in order. -/
def hoverSelectorsOf (t : List Effect) : List DocumentSelector :=
  t.filterMap fun e => match e with
    | Effect.registerHoverProviderFor s => some s
    | _ => none

/-- Whether a promise outcome is a normal resolution (no propagated error). -/
def resolves (r : Except String (List Effect)) : Bool :=
  match r with
  | Except.ok _ => true
  | Except.error _ => false

/-- A sample configuration used to instantiate universally quantified
statements at concrete inputs. -/
def cfg0 : Config :=
  { showOutput := false, httpProxy := "", httpProxyStrictSSL := true }

/-- A sample environment with one workspace folder. -/
def envSample : Env := { workspaceFolders := some ["/ws"], config := cfg0 }

/-- A sample environment with no workspace folder open. -/
def env0 : Env := { workspaceFolders := none, config := cfg0 }

/-- A sample discovered task. -/
def taskSample : Task :=
  { kind := "npm", name := "build", file := "pkg/package.json" }

end Extension

namespace Extension

/-- C1: for every file-system create/change/delete event subscription on a
watched pattern, and for the workspace-folder change subscription, the wired
handler is `invalidateScriptCaches`, whose effects invalidate the
hover-scripts cache and the tasks cache and refresh the tree view when a
tree data provider exists. -/
theorem C1_fs_events (env : Env) (tdp : Bool) (p : String) (k : WatchKind)
    (hw : env.workspaceFolders.isSome = true) (hp : p ∈ watchedPatterns) :
    Effect.subscribeWatcher p k Handler.invalidateScriptCaches ∈
      (registerAntTaskProvider env).2 ∧
    Effect.subscribeWorkspaceFolderChange Handler.invalidateScriptCaches ∈
      (registerAntTaskProvider env).2 ∧
    Effect.invalidateHoverScriptsCache none ∈ invalidateScriptCaches tdp ∧
    Effect.invalidateTasksCache ∈ invalidateScriptCaches tdp ∧
    (tdp = true → Effect.refreshTree ∈ invalidateScriptCaches tdp) := by
  simp only [watchedPatterns, List.mem_cons, List.not_mem_nil, or_false] at hp
  cases tdp <;> cases k <;>
    rcases hp with h | h | h <;> subst h <;>
      simp [registerAntTaskProvider, hw, watcherEffects, invalidateScriptCaches]

theorem C1_fs_events_witness :
    Effect.subscribeWatcher "**/package.json" WatchKind.create
        Handler.invalidateScriptCaches ∈ (registerAntTaskProvider envSample).2 ∧
    Effect.invalidateTasksCache ∈ invalidateScriptCaches true ∧
    Effect.refreshTree ∈ invalidateScriptCaches true := by
  have h := C1_fs_events envSample true "**/package.json" WatchKind.create rfl
    (by simp [watchedPatterns])
  exact ⟨h.1, h.2.2.2.1, h.2.2.2.2 rfl⟩

/-- C2: when workspace folders exist at activation, the watchers created
during the whole activation are exactly the three patterns
`**/[Bb]uild.xml`, `**/package.json`, `**/.vscode/tasks.json`, and for each
pattern the create, change and delete events are all subscribed. -/
theorem C2_watchers (env : Env) (hw : env.workspaceFolders.isSome = true) :
    watchersOf (activateInner env) = watchedPatterns ∧
    ∀ p ∈ watchedPatterns, ∀ k : WatchKind,
      Effect.subscribeWatcher p k Handler.invalidateScriptCaches ∈
        (registerAntTaskProvider env).2 := by
  constructor
  · rcases env with ⟨wf, so, hp, hs⟩
    simp only [Option.isSome] at hw
    cases wf with
    | none => exact absurd hw (by simp)
    | some l =>
        cases so <;>
          simp [watchersOf, activateInner, tryInit, registerAntTaskProvider,
            registerExplorer, registerHoverProvider, configureHttpRequest,
            watcherEffects, watchedPatterns]
  · intro p hp k
    simp only [watchedPatterns, List.mem_cons, List.not_mem_nil, or_false] at hp
    cases k <;> rcases hp with h | h | h <;> subst h <;>
      simp [registerAntTaskProvider, hw, watcherEffects]

theorem C2_watchers_witness :
    watchersOf (activateInner envSample) = watchedPatterns ∧
    Effect.subscribeWatcher "**/[Bb]uild.xml" WatchKind.delete
        Handler.invalidateScriptCaches ∈ (registerAntTaskProvider envSample).2 := by
  have h := C2_watchers envSample rfl
  exact ⟨h.1, h.2 "**/[Bb]uild.xml" (by simp [watchedPatterns]) WatchKind.delete⟩

/-- C3 counterexample: when a configuration change affects
`taskView.exclude` but no tree data provider exists (tree data provider is
`undefined`, as happens when activation ran with zero workspace folders),
the tasks cache is invalidated but the tree view is NOT refreshed, so
"the tasks cache is invalidated and the tree view refreshed iff the change
affects taskView.exclude" fails at this input. -/
theorem C3_counterexample :
    ¬ ((Effect.invalidateTasksCache ∈ onConfigChange true false cfg0 ∧
        Effect.refreshTree ∈ onConfigChange true false cfg0) ↔ true = true) := by
  decide

/-- C3 amended: on every configuration-change notification the current
`http.proxy` and `http.proxyStrictSSL` values are re-applied; the tasks
cache is invalidated iff the change affects `taskView.exclude`; the tree
view is refreshed iff the change affects `taskView.exclude` AND a tree data
provider exists. -/
theorem C3_config_change (affectsExclude treeDataProvider : Bool) (cfg : Config) :
    Effect.configureHttp cfg.httpProxy cfg.httpProxyStrictSSL ∈
      onConfigChange affectsExclude treeDataProvider cfg ∧
    (Effect.invalidateTasksCache ∈
        onConfigChange affectsExclude treeDataProvider cfg ↔
      affectsExclude = true) ∧
    (Effect.refreshTree ∈ onConfigChange affectsExclude treeDataProvider cfg ↔
      (affectsExclude = true ∧ treeDataProvider = true)) := by
  cases affectsExclude <;> cases treeDataProvider <;>
    simp [onConfigChange, configureHttpRequest]

/-- C4: with zero workspace folders, `registerAntTaskProvider`,
`registerExplorer` and `registerHoverProvider` all return `undefined` and
perform no registrations (no watchers, no workspace-folder listener, no
task provider, no tree view, no hover provider), and activation resolves
without error. -/
theorem C4_no_workspace (env : Env) (h : env.workspaceFolders = none) :
    (registerAntTaskProvider env).1 = none ∧
    (registerAntTaskProvider env).2 = [] ∧
    (registerExplorer env).1 = none ∧ (registerExplorer env).2 = [] ∧
    (registerHoverProvider env).1 = none ∧ (registerHoverProvider env).2 = [] ∧
    resolves (activate (Except.ok (activateInner env))) = true := by
  simp [registerAntTaskProvider, registerExplorer, registerHoverProvider, h,
    activate, resolves]

theorem C4_no_workspace_witness :
    (registerAntTaskProvider env0).1 = none ∧
    (registerAntTaskProvider env0).2 = [] ∧
    (registerExplorer env0).1 = none ∧ (registerExplorer env0).2 = [] ∧
    (registerHoverProvider env0).1 = none ∧ (registerHoverProvider env0).2 = [] ∧
    resolves (activate (Except.ok (activateInner env0))) = true :=
  C4_no_workspace env0 rfl

/-- C5: `activate` never propagates an error: whatever the inner
activation's outcome, `activate` resolves, and a rejection is turned into a
logged message. -/
theorem C5_activate_never_fails (inner : Except String (List Effect)) :
    resolves (activate inner) = true ∧
    (∀ e : String, activate (Except.error e) = Except.ok [Effect.logMsg e]) := by
  constructor
  · cases inner <;> rfl
  · intro e; rfl

/-- C6: a task whose defining file matches a configured exclusion pattern
is never included in the task provider's list result. -/
theorem C6_excluded_never_listed (matchGlob : String → String → Bool)
    (excludePatterns : List String) (discovered : List Task)
    (P : String) (T : Task)
    (hP : P ∈ excludePatterns) (hM : matchGlob T.file P = true) :
    T ∉ TaskProvider.list matchGlob excludePatterns discovered := by
  intro hT
  rw [TaskProvider.list, List.mem_filter] at hT
  have h2 := hT.2
  simp only [Bool.not_eq_true', List.any_eq_false] at h2
  exact absurd hM (by simpa using h2 P hP)

theorem C6_excluded_never_listed_witness :
    taskSample ∉
      TaskProvider.list (fun f p => f == p) ["pkg/package.json"] [taskSample] :=
  C6_excluded_never_listed (fun f p => f == p) ["pkg/package.json"]
    [taskSample] "pkg/package.json" taskSample (by simp) (by decide)

theorem lookup_filter_ne (l : List (String × α)) (scope : String) :
    (l.filter fun e => e.1 != scope).lookup scope = none := by
  induction l with
  | nil => rfl
  | cons hd tl ih =>
      by_cases h : hd.1 = scope
      · simp [List.filter_cons, h, ih]
      · have hb : (scope == hd.1) = false := by
          simp only [beq_eq_false_iff_ne, ne_eq]
          exact fun he => h he.symm
        simp only [List.filter_cons, bne_iff_ne, ne_eq, h, not_false_eq_true,
          if_pos, List.lookup, hb]
        exact ih

/-- C7: invalidating a scope and then querying it re-runs the parser and
returns the freshly parsed value, never the old cache entry. -/
theorem C7_invalidate_then_get {α : Type} (c : DiscoveryCache α)
    (parse : String → α) (scope : String) :
    ((c.invalidate scope).get parse scope).parsed = true ∧
    ((c.invalidate scope).get parse scope).value = parse scope := by
  have h : ((c.invalidate scope).entries).lookup scope = none :=
    lookup_filter_ne c.entries scope
  rw [DiscoveryCache.get, h]
  exact ⟨rfl, rfl⟩

/-- C8: the output channel is shown during activation iff the `showOutput`
setting read from the configuration store is true. -/
theorem C8_show_output_iff (env : Env) :
    Effect.showOutputChannel ∈ activateInner env ↔
      env.config.showOutput = true := by
  rcases env with ⟨wf, so, hp, hs⟩
  cases so <;> cases wf <;>
    simp [activateInner, tryInit, registerAntTaskProvider, registerExplorer,
      registerHoverProvider, configureHttpRequest, watcherEffects, npmSelector]

/-- C9: the text-document change handler only invalidates the hover-scripts
cache for the changed document; it does not invalidate the tasks cache and
does not refresh the tree view. -/
theorem C9_text_document_change_frame (doc : String) :
    onTextDocumentChange doc =
      [Effect.invalidateHoverScriptsCache (some doc)] ∧
    Effect.invalidateTasksCache ∉ onTextDocumentChange doc ∧
    Effect.refreshTree ∉ onTextDocumentChange doc := by
  refine ⟨rfl, ?_, ?_⟩ <;> simp [onTextDocumentChange]

/-- C10: when workspace folders exist, the hover-provider registrations of
the whole activation are exactly one, for documents with language json,
scheme file and pattern matching package.json files. -/
theorem C10_hover_selector (env : Env)
    (hw : env.workspaceFolders.isSome = true) :
    hoverSelectorsOf (activateInner env) = [npmSelector] ∧
    npmSelector =
      { language := "json", scheme := "file", pattern := "**/package.json" } := by
  refine ⟨?_, rfl⟩
  rcases env with ⟨wf, so, hp, hs⟩
  cases wf with
  | none => exact absurd hw (by simp)
  | some l =>
      cases so <;>
        simp [hoverSelectorsOf, activateInner, tryInit, registerAntTaskProvider,
          registerExplorer, registerHoverProvider, configureHttpRequest,
          watcherEffects]

theorem C10_hover_selector_witness :
    hoverSelectorsOf (activateInner envSample) = [npmSelector] ∧
    npmSelector =
      { language := "json", scheme := "file", pattern := "**/package.json" } :=
  C10_hover_selector envSample rfl

end Extension
